import Mathlib

/-!
Shallow embedding of `soil_grids/soil_grids.py` (the `SoilGrids` class): POSIX
path manipulation used by the constructor and filename properties, the caching
`download_file` routine, and the raster value transform shared by `FC` and `WP`.

External collaborators are modelled explicitly:
* the POSIX path functions (`posixpath.join`, `basename`, `dirname`,
  `os.path.abspath`, `expanduser`) are re-implemented over `List Char`
  following CPython's `posixpath` module, with the current working directory
  and home directory as explicit parameters;
* the filesystem is a map `String → Option String` (path to file content);
* the `wget` invocation is an oracle: the content found at the temporary
  path after the command returns (`none` when the command produced nothing);
* the raster library (`rasters`) delivers pixel values as `Option ℚ`, where
  `none` models the not-a-number missing marker (numpy `nan`): comparisons
  with `nan` are false, and arithmetic and clipping propagate `nan`.
-/

/-- Model of Python `str.startswith`: the first string starts with the second. -/
def startswith (s pre : String) : Bool := pre.data.isPrefixOf s.data

/-- Model of Python `str.endswith`: the first string ends with the second. -/
def endswith (s suf : String) : Bool := suf.data.isSuffixOf s.data

/-- Model of Python `str.rstrip('/')`: drop all trailing slashes. -/
def rstripSlash (s : String) : String :=
  ⟨(s.data.reverse.dropWhile (fun c => c = '/')).reverse⟩

/-- Model of Python `str.split(sep)` for a single-character separator,
written with structural recursion so the kernel can evaluate it. -/
def splitOnChar (c : Char) : List Char → List (List Char)
  | [] => [[]]
  | x :: xs =>
    let r := splitOnChar c xs
    if x = c then [] :: r
    else
      match r with
      | [] => [[x]]
      | h :: t => (x :: h) :: t

/-- Model of `posixpath.basename`: everything after the last slash. -/
def basename (p : String) : String :=
  ⟨(p.data.reverse.takeWhile (fun c => c ≠ '/')).reverse⟩

/-- Model of `posixpath.dirname`: everything up to the last slash, with
trailing slashes stripped unless the head is all slashes. -/
def dirname (p : String) : String :=
  let head := (p.data.reverse.dropWhile (fun c => c ≠ '/')).reverse
  let head :=
    if head ≠ [] ∧ head.any (fun c => c ≠ '/') then
      (head.reverse.dropWhile (fun c => c = '/')).reverse
    else head
  ⟨head⟩

/-- Model of the two-argument `posixpath.join`. -/
def join (a b : String) : String :=
  if startswith b "/" then b
  else if a = "" ∨ endswith a "/" then a ++ b
  else a ++ "/" ++ b

/-- Model of `posixpath.normpath`, following CPython: count initial slashes
(`//` is kept as two, any other run as one), split on `/`, drop empty and
`.` components, resolve `..` against preceding components, and rejoin. -/
def normpath (p : String) : String :=
  if p = "" then "." else
  let initSlashes : Nat :=
    if ¬ startswith p "/" then 0
    else if startswith p "//" ∧ ¬ startswith p "///" then 2 else 1
  let comps : List (List Char) := splitOnChar '/' p.data
  let newComps : List (List Char) := comps.foldl (fun acc comp =>
    if comp = [] ∨ comp = ['.'] then acc
    else if comp ≠ ['.', '.'] ∨ (initSlashes = 0 ∧ acc = [])
        ∨ (acc.getLast? = some ['.', '.']) then acc ++ [comp]
    else acc.dropLast) []
  let body : String := ⟨List.intercalate ['/'] newComps⟩
  if initSlashes = 2 then "//" ++ body
  else if initSlashes = 1 then "/" ++ body
  else if body = "" then "." else body

/-- Model of `os.path.abspath` with the current working directory explicit:
join onto `cwd` when the path is relative, then normalize. -/
def abspath (cwd p : String) : String :=
  if startswith p "/" then normpath p else normpath (join cwd p)

/-- Model of `posixpath.expanduser` with the home directory explicit,
restricted to the `~` and `~/rest` forms; the `~user` form consults the
user database, modelled as empty, so it returns the path unchanged (as
CPython does for an unknown user). -/
def expanduser (home p : String) : String :=
  if ¬ startswith p "~" then p
  else if p = "~" ∨ startswith p "~/" then
    let userhome := rstripSlash home
    let r : String := ⟨userhome.data ++ p.data.drop 1⟩
    if r = "" then "/" else r
  else p

/-- Module constant `DEFAULT_RESAMPLING`. -/
def DEFAULT_RESAMPLING : String := "cubic"

/-- Module constant `DEFAULT_WORKING_DIRECTORY`. -/
def DEFAULT_WORKING_DIRECTORY : String := "."

/-- Module constant `DEFAULT_DOWNLOAD_DIRECTORY`. -/
def DEFAULT_DOWNLOAD_DIRECTORY : String := "SoilGrids_download"

/-- The attribute state of a `SoilGrids` instance. -/
structure SoilGrids where
  working_directory : String
  source_directory : String
  resampling : String
  deriving Repr, DecidableEq

/-- Class attribute `SoilGrids.FC_URL`. -/
def SoilGrids.FC_URL : String :=
  "https://zenodo.org/record/2784001/files/sol_watercontent.33kPa_usda.4b1c_m_250m_b0..0cm_1950..2017_v0.1.tif"

/-- Class attribute `SoilGrids.WP_URL`. -/
def SoilGrids.WP_URL : String :=
  "https://zenodo.org/record/2784001/files/sol_watercontent.1500kPa_usda.3c2a1a_m_250m_b0..0cm_1950..2017_v0.1.tif"

/-- `SoilGrids.__init__`: default the working directory to the expanded
absolute current directory, default the source directory to the
`SoilGrids_download` subdirectory, then store expanded absolute paths.
`cwd` and `home` make the process environment explicit. -/
def SoilGrids.init (cwd home : String) (working_directory source_directory : Option String)
    (resampling : String) : SoilGrids :=
  let wd := match working_directory with
    | none => abspath cwd (expanduser home DEFAULT_WORKING_DIRECTORY)
    | some w => w
  let sd := match source_directory with
    | none => join wd DEFAULT_DOWNLOAD_DIRECTORY
    | some s => s
  { working_directory := abspath cwd (expanduser home wd)
    source_directory := abspath cwd (expanduser home sd)
    resampling := resampling }

/-- Property `SoilGrids.FC_filename`. -/
def SoilGrids.FC_filename (sg : SoilGrids) : String :=
  join sg.source_directory (basename SoilGrids.FC_URL)

/-- Property `SoilGrids.WP_filename`. -/
def SoilGrids.WP_filename (sg : SoilGrids) : String :=
  join sg.source_directory (basename SoilGrids.WP_URL)

/-- A raster pixel value from the rasters library: `none` models the
not-a-number missing marker written by `np.nan`. -/
abbrev PixelVal := Option ℚ

/-- A raster: pixel values indexed by flat position, plus the declared
missing-value metadata `nodata`. -/
structure Raster where
  data : Nat → PixelVal
  nodata : PixelVal

/-- Model of `rt.where(image == 255, np.nan, image)`: a pixel equal to the
sentinel becomes missing; a missing pixel compares unequal to 255 (as `nan`
does) and is kept. -/
def maskSentinel (r : Raster) : Raster :=
  { r with data := fun i =>
      match r.data i with
      | some v => if v = 255 then none else some v
      | none => none }

/-- Model of `image / 100`: elementwise division, `nan` propagating. -/
def divRaster (r : Raster) (d : ℚ) : Raster :=
  { r with data := fun i => (r.data i).map (fun v => v / d) }

/-- Model of `rt.clip(image, lo, hi)`: elementwise clamp, `nan` propagating. -/
def clipRaster (r : Raster) (lo hi : ℚ) : Raster :=
  { r with data := fun i => (r.data i).map (fun v => min hi (max lo v)) }

/-- The value-transform pipeline shared verbatim by `FC` and `WP`:
mask the sentinel 255 to missing, declare `nodata` to be the missing
marker, divide by 100, clamp to [0, 1]. -/
def soilTransform (image : Raster) : Raster :=
  let image := maskSentinel image
  let image := { image with nodata := none }
  let image := clipRaster (divRaster image 100) 0 1
  image

/-- A filesystem state: each path maps to the content of the file there,
or `none` when no file exists at that path. -/
abbrev FileSys := String → Option String

/-- Point update of a filesystem state. -/
def fsUpdate (fs : FileSys) (p : String) (v : Option String) : FileSys :=
  fun q => if q = p then v else fs q

/-- Outcome of `SoilGrids.download_file`: the filesystem afterwards, the
returned filename or the raised error message, and the observable side
effects (number of `wget` invocations, directories passed to `makedirs`). -/
structure DownloadResult where
  fs : FileSys
  ret : Except String String
  transferCalls : Nat
  dirsCreated : List String

/-- `SoilGrids.download_file(URL, filename)`: return immediately when the
file exists; otherwise create the parent directory, run `wget` writing to
`filename + ".download"` (`transferOutput` is the content found there after
the command, `none` when it produced nothing), raise `IOError` naming the
URL when the temporary path does not exist, else move it into place. -/
def download_file (fs : FileSys) (URL filename : String)
    (transferOutput : Option String) : DownloadResult :=
  if (fs filename).isSome then
    { fs := fs, ret := Except.ok filename, transferCalls := 0, dirsCreated := [] }
  else
    let directory := dirname filename
    let temp_filename := filename ++ ".download"
    let fs1 := fsUpdate fs temp_filename transferOutput
    if (fs1 temp_filename).isSome then
      let fs2 := fsUpdate (fsUpdate fs1 filename (fs1 temp_filename)) temp_filename none
      { fs := fs2, ret := Except.ok filename, transferCalls := 1,
        dirsCreated := [directory] }
    else
      { fs := fs1, ret := Except.error ("unable to download URL: " ++ URL),
        transferCalls := 1, dirsCreated := [directory] }

/-- The arguments of a `rt.Raster.open` call (`G` is the type of raster
geometries, opaque to this module). -/
structure OpenCall (G : Type) where
  filename : String
  geometry : Option G
  resampling : String
  deriving DecidableEq

/-- Outcome of `FC`/`WP`: the (unchanged) instance state, the filesystem
afterwards, the `wget` invocation count, the `rt.Raster.open` call made (if
reached), the returned raster, and the propagated error message (if any). -/
structure GetResult (G : Type) where
  state : SoilGrids
  fs : FileSys
  transferCalls : Nat
  openCall : Option (OpenCall G)
  image : Option Raster
  error : Option String

/-- `SoilGrids.FC(geometry, resampling)`: resolve the effective resampling,
download the Field Capacity file when absent (propagating the download
error), open the raster (`rasterOpen` is the external library's open,
keyed by its arguments), and apply the value transform. -/
def FC {G : Type} (sg : SoilGrids) (fs : FileSys) (geometry : Option G)
    (resampling : Option String) (transferOutput : Option String)
    (rasterOpen : String → Option G → String → Raster) : GetResult G :=
  let resampling := match resampling with
    | none => sg.resampling
    | some r => r
  let URL := SoilGrids.FC_URL
  let filename := sg.FC_filename
  if (fs filename).isSome then
    let image := rasterOpen filename geometry resampling
    { state := sg, fs := fs, transferCalls := 0,
      openCall := some ⟨filename, geometry, resampling⟩,
      image := some (soilTransform image), error := none }
  else
    let dl := download_file fs URL filename transferOutput
    match dl.ret with
    | Except.error e =>
      { state := sg, fs := dl.fs, transferCalls := dl.transferCalls,
        openCall := none, image := none, error := some e }
    | Except.ok _ =>
      let image := rasterOpen filename geometry resampling
      { state := sg, fs := dl.fs, transferCalls := dl.transferCalls,
        openCall := some ⟨filename, geometry, resampling⟩,
        image := some (soilTransform image), error := none }

/-- `SoilGrids.WP(geometry, resampling)`: identical to `FC` with the
Wilting Point URL and filename substituted. -/
def WP {G : Type} (sg : SoilGrids) (fs : FileSys) (geometry : Option G)
    (resampling : Option String) (transferOutput : Option String)
    (rasterOpen : String → Option G → String → Raster) : GetResult G :=
  let resampling := match resampling with
    | none => sg.resampling
    | some r => r
  let URL := SoilGrids.WP_URL
  let filename := sg.WP_filename
  if (fs filename).isSome then
    let image := rasterOpen filename geometry resampling
    { state := sg, fs := fs, transferCalls := 0,
      openCall := some ⟨filename, geometry, resampling⟩,
      image := some (soilTransform image), error := none }
  else
    let dl := download_file fs URL filename transferOutput
    match dl.ret with
    | Except.error e =>
      { state := sg, fs := dl.fs, transferCalls := dl.transferCalls,
        openCall := none, image := none, error := some e }
    | Except.ok _ =>
      let image := rasterOpen filename geometry resampling
      { state := sg, fs := dl.fs, transferCalls := dl.transferCalls,
        openCall := some ⟨filename, geometry, resampling⟩,
        image := some (soilTransform image), error := none }

/-- The single parameterized per-product routine the spec describes
(`get(geometry, resampling)` for a product given by its URL and local
filename): the common body that `FC` and `WP` instantiate. -/
def productRaster {G : Type} (sg : SoilGrids) (URL filename : String)
    (fs : FileSys) (geometry : Option G) (resampling : Option String)
    (transferOutput : Option String)
    (rasterOpen : String → Option G → String → Raster) : GetResult G :=
  let resampling := match resampling with
    | none => sg.resampling
    | some r => r
  if (fs filename).isSome then
    let image := rasterOpen filename geometry resampling
    { state := sg, fs := fs, transferCalls := 0,
      openCall := some ⟨filename, geometry, resampling⟩,
      image := some (soilTransform image), error := none }
  else
    let dl := download_file fs URL filename transferOutput
    match dl.ret with
    | Except.error e =>
      { state := sg, fs := dl.fs, transferCalls := dl.transferCalls,
        openCall := none, image := none, error := some e }
    | Except.ok _ =>
      let image := rasterOpen filename geometry resampling
      { state := sg, fs := dl.fs, transferCalls := dl.transferCalls,
        openCall := some ⟨filename, geometry, resampling⟩,
        image := some (soilTransform image), error := none }

/-- The effective resampling method `FC`/`WP` resolve: the explicit
argument when given, else the instance default. -/
def effRes (sg : SoilGrids) (resampling : Option String) : String :=
  match resampling with
  | none => sg.resampling
  | some r => r

/-! ### Helper lemmas -/

theorem sw_of_data (s : String) (t : List Char) (h : s.data = '/' :: t) :
    startswith s "/" = true := by
  simp [startswith, h, List.isPrefixOf]

theorem sw_slash_append (s : String) : startswith ("/" ++ s) "/" = true :=
  sw_of_data _ s.data (by rw [String.data_append]; rfl)

theorem sw_ne_empty (s : String) (h : startswith s "/" = true) : s ≠ "" := by
  intro he
  subst he
  simp [startswith, List.isPrefixOf] at h

theorem sw_append_of_sw (a b : String) (h : startswith a "/" = true) :
    startswith (a ++ b) "/" = true := by
  unfold startswith at *
  rw [String.data_append]
  cases hd : a.data with
  | nil => rw [hd] at h; simp [List.isPrefixOf] at h
  | cons c cs =>
    rw [hd] at h
    simp [List.isPrefixOf] at h
    rw [← h]
    simp [List.isPrefixOf]

theorem normpath_abs (p : String) (h : startswith p "/" = true) :
    startswith (normpath p) "/" = true := by
  have hne : p ≠ "" := sw_ne_empty p h
  unfold normpath
  rw [if_neg hne]
  by_cases h2 : startswith p "//" = true <;>
    by_cases h3 : startswith p "///" = true <;>
      simp [h, h2, h3] <;>
        exact sw_slash_append _

theorem join_abs (a b : String) (h : startswith a "/" = true) :
    startswith (join a b) "/" = true := by
  unfold join
  by_cases hb : startswith b "/" = true
  · simp [hb]
  · rw [if_neg (by simp [hb])]
    by_cases ha : a = "" ∨ endswith a "/" = true
    · rw [if_pos ha]
      exact sw_append_of_sw a b h
    · rw [if_neg ha]
      exact sw_append_of_sw _ _ (sw_append_of_sw a "/" h)

theorem abspath_abs (cwd p : String) (h : startswith cwd "/" = true) :
    startswith (abspath cwd p) "/" = true := by
  unfold abspath
  by_cases hp : startswith p "/" = true
  · rw [if_pos hp]; exact normpath_abs p hp
  · rw [if_neg hp]; exact normpath_abs _ (join_abs cwd p h)

theorem ne_download_suffix (s : String) : s ≠ s ++ ".download" := by
  intro h
  have hl : s.data.length = (s ++ ".download").data.length := by rw [← h]
  rw [String.data_append, List.length_append] at hl
  have h9 : (".download" : String).data.length = 9 := rfl
  omega

theorem soilTransform_nodata (raw : Raster) : (soilTransform raw).nodata = none := rfl

theorem soilTransform_sentinel (raw : Raster) (i : Nat) (h : raw.data i = some 255) :
    (soilTransform raw).data i = none := by
  simp [soilTransform, clipRaster, divRaster, maskSentinel, h]

theorem soilTransform_div (raw : Raster) (i : Nat) (v : ℚ) (h : raw.data i = some v)
    (h0 : 0 ≤ v) (h1 : v ≤ 100) :
    (soilTransform raw).data i = some (v / 100) := by
  have hne : v ≠ 255 := by intro he; rw [he] at h1; norm_num at h1
  simp [soilTransform, clipRaster, divRaster, maskSentinel, h, hne]
  rw [max_eq_right (by positivity),
    min_eq_right ((div_le_one (by norm_num)).mpr h1)]

theorem soilTransform_clamp (raw : Raster) (i : Nat) (v : ℚ) (h : raw.data i = some v)
    (hlo : 100 < v) (hhi : v < 255) :
    (soilTransform raw).data i = some 1 := by
  have hne : v ≠ 255 := ne_of_lt hhi
  have h1 : (1 : ℚ) ≤ v / 100 := by
    rw [le_div_iff₀ (by norm_num)]; linarith
  have hmm : min 1 (max 0 (v / 100)) = (1 : ℚ) := by
    rw [max_eq_right (by linarith), min_eq_left h1]
  simp [soilTransform, clipRaster, divRaster, maskSentinel, h, hne, hmm]

theorem FC_state {G : Type} (sg : SoilGrids) (fs : FileSys) (g : Option G)
    (r t : Option String) (op : String → Option G → String → Raster) :
    (FC sg fs g r t op).state = sg := by
  rcases r with _ | r' <;>
    (simp only [FC]; split
     · rfl
     · split <;> rfl)

theorem WP_state {G : Type} (sg : SoilGrids) (fs : FileSys) (g : Option G)
    (r t : Option String) (op : String → Option G → String → Raster) :
    (WP sg fs g r t op).state = sg := by
  rcases r with _ | r' <;>
    (simp only [WP]; split
     · rfl
     · split <;> rfl)

theorem FC_image_some {G : Type} (sg : SoilGrids) (fs : FileSys) (g : Option G)
    (r t : Option String) (op : String → Option G → String → Raster) (img : Raster)
    (h : (FC sg fs g r t op).image = some img) :
    img = soilTransform (op sg.FC_filename g (effRes sg r)) := by
  rcases r with _ | r' <;>
    (simp only [FC] at h
     split at h
     · exact (Option.some.inj h).symm
     · split at h
       · exact absurd h (by simp)
       · exact (Option.some.inj h).symm)

theorem WP_image_some {G : Type} (sg : SoilGrids) (fs : FileSys) (g : Option G)
    (r t : Option String) (op : String → Option G → String → Raster) (img : Raster)
    (h : (WP sg fs g r t op).image = some img) :
    img = soilTransform (op sg.WP_filename g (effRes sg r)) := by
  rcases r with _ | r' <;>
    (simp only [WP] at h
     split at h
     · exact (Option.some.inj h).symm
     · split at h
       · exact absurd h (by simp)
       · exact (Option.some.inj h).symm)

theorem FC_openCall_some {G : Type} (sg : SoilGrids) (fs : FileSys) (g : Option G)
    (r t : Option String) (op : String → Option G → String → Raster) (c : OpenCall G)
    (h : (FC sg fs g r t op).openCall = some c) :
    c = ⟨sg.FC_filename, g, effRes sg r⟩ := by
  rcases r with _ | r' <;>
    (simp only [FC] at h
     split at h
     · exact (Option.some.inj h).symm
     · split at h
       · exact absurd h (by simp)
       · exact (Option.some.inj h).symm)

theorem WP_openCall_some {G : Type} (sg : SoilGrids) (fs : FileSys) (g : Option G)
    (r t : Option String) (op : String → Option G → String → Raster) (c : OpenCall G)
    (h : (WP sg fs g r t op).openCall = some c) :
    c = ⟨sg.WP_filename, g, effRes sg r⟩ := by
  rcases r with _ | r' <;>
    (simp only [WP] at h
     split at h
     · exact (Option.some.inj h).symm
     · split at h
       · exact absurd h (by simp)
       · exact (Option.some.inj h).symm)

theorem FC_openCall_char {G : Type} (sg : SoilGrids) (fs : FileSys) (g : Option G)
    (r t : Option String) (op : String → Option G → String → Raster) :
    (FC sg fs g r t op).openCall = some (⟨sg.FC_filename, g, effRes sg r⟩ : OpenCall G)
      ∨ ((FC sg fs g r t op).openCall = none ∧ (FC sg fs g r t op).error ≠ none) := by
  rcases r with _ | r' <;>
    (simp only [FC]
     split
     · exact Or.inl rfl
     · split
       · exact Or.inr ⟨rfl, by simp⟩
       · exact Or.inl rfl)

theorem WP_openCall_char {G : Type} (sg : SoilGrids) (fs : FileSys) (g : Option G)
    (r t : Option String) (op : String → Option G → String → Raster) :
    (WP sg fs g r t op).openCall = some (⟨sg.WP_filename, g, effRes sg r⟩ : OpenCall G)
      ∨ ((WP sg fs g r t op).openCall = none ∧ (WP sg fs g r t op).error ≠ none) := by
  rcases r with _ | r' <;>
    (simp only [WP]
     split
     · exact Or.inl rfl
     · split
       · exact Or.inr ⟨rfl, by simp⟩
       · exact Or.inl rfl)

/-! ### Claim theorems -/

/-- Claim C1: for both product accessors (`FC` and `WP`), a raw pixel equal
to the sentinel 255 becomes the missing marker in the returned raster, and
the returned raster's declared `nodata` metadata is that marker. -/
theorem sentinel_masks_to_missing {G : Type} (sg : SoilGrids) (fs : FileSys)
    (g : Option G) (r t : Option String) (op : String → Option G → String → Raster)
    (i : Nat)
    (hfc : (op sg.FC_filename g (effRes sg r)).data i = some 255)
    (hwp : (op sg.WP_filename g (effRes sg r)).data i = some 255) :
    (∀ img, (FC sg fs g r t op).image = some img →
      img.data i = none ∧ img.nodata = none) ∧
    (∀ img, (WP sg fs g r t op).image = some img →
      img.data i = none ∧ img.nodata = none) := by
  constructor
  · intro img h
    rw [FC_image_some sg fs g r t op img h]
    exact ⟨soilTransform_sentinel _ i hfc, soilTransform_nodata _⟩
  · intro img h
    rw [WP_image_some sg fs g r t op img h]
    exact ⟨soilTransform_sentinel _ i hwp, soilTransform_nodata _⟩

theorem sentinel_masks_to_missing_witness :
    (∀ img, (FC (SoilGrids.mk "/w" "/w/s" "cubic") (fun _ => some "x")
        (none : Option Unit) none none
        (fun _ _ _ => Raster.mk (fun _ => some 255) (some 0))).image = some img →
      img.data 0 = none ∧ img.nodata = none) ∧
    (∀ img, (WP (SoilGrids.mk "/w" "/w/s" "cubic") (fun _ => some "x")
        (none : Option Unit) none none
        (fun _ _ _ => Raster.mk (fun _ => some 255) (some 0))).image = some img →
      img.data 0 = none ∧ img.nodata = none) :=
  sentinel_masks_to_missing _ _ _ _ _ _ 0 rfl rfl

/-- Claim C2: with the target file initially absent, if the transfer command
leaves nothing at the temporary path `filename + ".download"`, then
`download_file` raises an I/O error whose message names the URL, and no file
exists at the final target path afterward (the rename never happens). -/
theorem transfer_no_output_raises (fs : FileSys) (URL filename : String)
    (habs : fs filename = none) :
    (download_file fs URL filename none).ret
        = Except.error ("unable to download URL: " ++ URL) ∧
    (download_file fs URL filename none).fs filename = none ∧
    (download_file fs URL filename none).fs (filename ++ ".download") = none := by
  refine ⟨?_, ?_, ?_⟩ <;> simp [download_file, fsUpdate, habs]

theorem transfer_no_output_raises_witness :
    (download_file (fun _ => none) "https://u" "f" none).ret
        = Except.error ("unable to download URL: " ++ "https://u") ∧
    (download_file (fun _ => none) "https://u" "f" none).fs "f" = none ∧
    (download_file (fun _ => none) "https://u" "f" none).fs ("f" ++ ".download") = none :=
  transfer_no_output_raises (fun _ => none) "https://u" "f" rfl

/-- Claim C3: when the target file already exists, `download_file` returns
it immediately with no transfer invocation, no directory creation and no
filesystem write; hence a `get`-style call (`FC`) with the local file
present performs zero transfer invocations and leaves the filesystem as is. -/
theorem cache_hit_skips_transfer {G : Type} (fs : FileSys) (URL filename c cf : String)
    (tOut : Option String) (sg : SoilGrids) (g : Option G) (r : Option String)
    (op : String → Option G → String → Raster)
    (h : fs filename = some c) (hfc : fs sg.FC_filename = some cf) :
    download_file fs URL filename tOut
      = { fs := fs, ret := Except.ok filename, transferCalls := 0, dirsCreated := [] } ∧
    (FC sg fs g r tOut op).transferCalls = 0 ∧
    (FC sg fs g r tOut op).fs = fs := by
  refine ⟨?_, ?_, ?_⟩ <;> simp [download_file, FC, h, hfc]

theorem cache_hit_skips_transfer_witness :
    download_file (fun _ => some "x") "https://u" "f" none
      = { fs := fun _ => some "x", ret := Except.ok "f",
          transferCalls := 0, dirsCreated := [] } ∧
    (FC (SoilGrids.mk "/w" "/w/s" "cubic") (fun _ => some "x") (none : Option Unit)
        none none (fun _ _ _ => Raster.mk (fun _ => some 0) none)).transferCalls = 0 ∧
    (FC (SoilGrids.mk "/w" "/w/s" "cubic") (fun _ => some "x") (none : Option Unit)
        none none (fun _ _ _ => Raster.mk (fun _ => some 0) none)).fs
      = fun _ => some "x" :=
  cache_hit_skips_transfer _ "https://u" "f" "x" "x" none _ none none _ rfl rfl

/-- Claim C4: for each product, with the local file absent and the transfer
command producing output at the temporary path, `download_file` leaves a
file at the final path `source_directory/basename(url)`, removes the
temporary suffixed path, and returns that final path. -/
theorem download_success_renames (sg : SoilGrids) (fs : FileSys) (content : String)
    (hfc : fs sg.FC_filename = none) (hwp : fs sg.WP_filename = none) :
    sg.FC_filename = join sg.source_directory (basename SoilGrids.FC_URL) ∧
    (download_file fs SoilGrids.FC_URL sg.FC_filename (some content)).ret
        = Except.ok sg.FC_filename ∧
    (download_file fs SoilGrids.FC_URL sg.FC_filename (some content)).fs sg.FC_filename
        = some content ∧
    (download_file fs SoilGrids.FC_URL sg.FC_filename (some content)).fs
        (sg.FC_filename ++ ".download") = none ∧
    sg.WP_filename = join sg.source_directory (basename SoilGrids.WP_URL) ∧
    (download_file fs SoilGrids.WP_URL sg.WP_filename (some content)).ret
        = Except.ok sg.WP_filename ∧
    (download_file fs SoilGrids.WP_URL sg.WP_filename (some content)).fs sg.WP_filename
        = some content ∧
    (download_file fs SoilGrids.WP_URL sg.WP_filename (some content)).fs
        (sg.WP_filename ++ ".download") = none := by
  refine ⟨rfl, ?_, ?_, ?_, rfl, ?_, ?_, ?_⟩ <;>
    simp [download_file, fsUpdate, hfc, hwp, ne_download_suffix sg.FC_filename,
      ne_download_suffix sg.WP_filename]

theorem download_success_renames_witness :
    (SoilGrids.mk "/w" "/w/s" "cubic").FC_filename
        = join (SoilGrids.mk "/w" "/w/s" "cubic").source_directory
            (basename SoilGrids.FC_URL) ∧
    (download_file (fun _ => none) SoilGrids.FC_URL
        (SoilGrids.mk "/w" "/w/s" "cubic").FC_filename (some "data")).ret
        = Except.ok (SoilGrids.mk "/w" "/w/s" "cubic").FC_filename ∧
    (download_file (fun _ => none) SoilGrids.FC_URL
        (SoilGrids.mk "/w" "/w/s" "cubic").FC_filename (some "data")).fs
        (SoilGrids.mk "/w" "/w/s" "cubic").FC_filename = some "data" ∧
    (download_file (fun _ => none) SoilGrids.FC_URL
        (SoilGrids.mk "/w" "/w/s" "cubic").FC_filename (some "data")).fs
        ((SoilGrids.mk "/w" "/w/s" "cubic").FC_filename ++ ".download") = none ∧
    (SoilGrids.mk "/w" "/w/s" "cubic").WP_filename
        = join (SoilGrids.mk "/w" "/w/s" "cubic").source_directory
            (basename SoilGrids.WP_URL) ∧
    (download_file (fun _ => none) SoilGrids.WP_URL
        (SoilGrids.mk "/w" "/w/s" "cubic").WP_filename (some "data")).ret
        = Except.ok (SoilGrids.mk "/w" "/w/s" "cubic").WP_filename ∧
    (download_file (fun _ => none) SoilGrids.WP_URL
        (SoilGrids.mk "/w" "/w/s" "cubic").WP_filename (some "data")).fs
        (SoilGrids.mk "/w" "/w/s" "cubic").WP_filename = some "data" ∧
    (download_file (fun _ => none) SoilGrids.WP_URL
        (SoilGrids.mk "/w" "/w/s" "cubic").WP_filename (some "data")).fs
        ((SoilGrids.mk "/w" "/w/s" "cubic").WP_filename ++ ".download") = none :=
  download_success_renames (SoilGrids.mk "/w" "/w/s" "cubic") (fun _ => none) "data"
    rfl rfl

/-- Claim C5: the value transform applied by `FC` and `WP` maps any raw
value v in [0, 100] to exactly v/100: the clamp is the identity there
because v/100 always lies in [0, 1]. -/
theorem transform_exact_division {G : Type} (sg : SoilGrids) (fs : FileSys)
    (g : Option G) (r t : Option String) (op : String → Option G → String → Raster)
    (i : Nat) (v : ℚ) (h0 : 0 ≤ v) (h1 : v ≤ 100)
    (hfc : (op sg.FC_filename g (effRes sg r)).data i = some v)
    (hwp : (op sg.WP_filename g (effRes sg r)).data i = some v) :
    0 ≤ v / 100 ∧ v / 100 ≤ 1 ∧
    (∀ img, (FC sg fs g r t op).image = some img → img.data i = some (v / 100)) ∧
    (∀ img, (WP sg fs g r t op).image = some img → img.data i = some (v / 100)) := by
  refine ⟨by positivity, (div_le_one (by norm_num)).mpr h1, ?_, ?_⟩
  · intro img h
    rw [FC_image_some sg fs g r t op img h]
    exact soilTransform_div _ i v hfc h0 h1
  · intro img h
    rw [WP_image_some sg fs g r t op img h]
    exact soilTransform_div _ i v hwp h0 h1

theorem transform_exact_division_witness :
    0 ≤ (50 : ℚ) / 100 ∧ (50 : ℚ) / 100 ≤ 1 ∧
    (∀ img, (FC (SoilGrids.mk "/w" "/w/s" "cubic") (fun _ => some "x")
        (none : Option Unit) none none
        (fun _ _ _ => Raster.mk (fun _ => some 50) none)).image = some img →
      img.data 0 = some ((50 : ℚ) / 100)) ∧
    (∀ img, (WP (SoilGrids.mk "/w" "/w/s" "cubic") (fun _ => some "x")
        (none : Option Unit) none none
        (fun _ _ _ => Raster.mk (fun _ => some 50) none)).image = some img →
      img.data 0 = some ((50 : ℚ) / 100)) :=
  transform_exact_division _ _ _ _ _ _ 0 50 (by norm_num) (by norm_num) rfl rfl

/-- Claim C6: the value transform applied by `FC` and `WP` maps any raw
value v with 100 < v < 255 to exactly 1 (clamped), not to the unclamped
v/100. -/
theorem transform_clamps_above_one {G : Type} (sg : SoilGrids) (fs : FileSys)
    (g : Option G) (r t : Option String) (op : String → Option G → String → Raster)
    (i : Nat) (v : ℚ) (hlo : 100 < v) (hhi : v < 255)
    (hfc : (op sg.FC_filename g (effRes sg r)).data i = some v)
    (hwp : (op sg.WP_filename g (effRes sg r)).data i = some v) :
    (∀ img, (FC sg fs g r t op).image = some img → img.data i = some 1) ∧
    (∀ img, (WP sg fs g r t op).image = some img → img.data i = some 1) := by
  constructor
  · intro img h
    rw [FC_image_some sg fs g r t op img h]
    exact soilTransform_clamp _ i v hfc hlo hhi
  · intro img h
    rw [WP_image_some sg fs g r t op img h]
    exact soilTransform_clamp _ i v hwp hlo hhi

theorem transform_clamps_above_one_witness :
    (∀ img, (FC (SoilGrids.mk "/w" "/w/s" "cubic") (fun _ => some "x")
        (none : Option Unit) none none
        (fun _ _ _ => Raster.mk (fun _ => some 150) none)).image = some img →
      img.data 0 = some 1) ∧
    (∀ img, (WP (SoilGrids.mk "/w" "/w/s" "cubic") (fun _ => some "x")
        (none : Option Unit) none none
        (fun _ _ _ => Raster.mk (fun _ => some 150) none)).image = some img →
      img.data 0 = some 1) :=
  transform_clamps_above_one _ _ _ _ _ _ 0 150 (by norm_num) (by norm_num) rfl rfl

/-- Claim C7: for every instance, filesystem state and call (cache hit or
download), an explicit resampling argument is the one passed to the raster
open call (not the instance default): every open call made carries it, and
every call that does not fail makes the open call with it; the instance's
configured resampling is unchanged afterwards, and a `none` argument falls
back to the instance default. -/
theorem resampling_override_used {G : Type} (sg : SoilGrids) (fs : FileSys)
    (g : Option G) (r' : String) (t : Option String)
    (op : String → Option G → String → Raster) :
    (∀ c, (FC sg fs g (some r') t op).openCall = some c →
      c = ⟨sg.FC_filename, g, r'⟩) ∧
    ((FC sg fs g (some r') t op).error = none →
      (FC sg fs g (some r') t op).openCall = some ⟨sg.FC_filename, g, r'⟩) ∧
    (FC sg fs g (some r') t op).state = sg ∧
    (∀ c, (FC sg fs g none t op).openCall = some c →
      c = ⟨sg.FC_filename, g, sg.resampling⟩) ∧
    (∀ c, (WP sg fs g (some r') t op).openCall = some c →
      c = ⟨sg.WP_filename, g, r'⟩) ∧
    ((WP sg fs g (some r') t op).error = none →
      (WP sg fs g (some r') t op).openCall = some ⟨sg.WP_filename, g, r'⟩) ∧
    (WP sg fs g (some r') t op).state = sg ∧
    (∀ c, (WP sg fs g none t op).openCall = some c →
      c = ⟨sg.WP_filename, g, sg.resampling⟩) := by
  refine ⟨fun c hc => FC_openCall_some sg fs g (some r') t op c hc, ?_,
    FC_state sg fs g (some r') t op,
    fun c hc => FC_openCall_some sg fs g none t op c hc,
    fun c hc => WP_openCall_some sg fs g (some r') t op c hc, ?_,
    WP_state sg fs g (some r') t op,
    fun c hc => WP_openCall_some sg fs g none t op c hc⟩
  · intro herr
    rcases FC_openCall_char sg fs g (some r') t op with hc | ⟨_, hne⟩
    · exact hc
    · exact absurd herr hne
  · intro herr
    rcases WP_openCall_char sg fs g (some r') t op with hc | ⟨_, hne⟩
    · exact hc
    · exact absurd herr hne

theorem resampling_override_used_witness :
    (∀ c, (FC (SoilGrids.mk "/w" "/w/s" "cubic") (fun _ => some "x")
        (none : Option Unit) (some "nearest") none
        (fun _ _ _ => Raster.mk (fun _ => some 0) none)).openCall = some c →
      c = ⟨(SoilGrids.mk "/w" "/w/s" "cubic").FC_filename, none, "nearest"⟩) ∧
    ((FC (SoilGrids.mk "/w" "/w/s" "cubic") (fun _ => some "x") (none : Option Unit)
        (some "nearest") none (fun _ _ _ => Raster.mk (fun _ => some 0) none)).error = none →
      (FC (SoilGrids.mk "/w" "/w/s" "cubic") (fun _ => some "x") (none : Option Unit)
        (some "nearest") none (fun _ _ _ => Raster.mk (fun _ => some 0) none)).openCall
        = some ⟨(SoilGrids.mk "/w" "/w/s" "cubic").FC_filename, none, "nearest"⟩) ∧
    (FC (SoilGrids.mk "/w" "/w/s" "cubic") (fun _ => some "x") (none : Option Unit)
        (some "nearest") none (fun _ _ _ => Raster.mk (fun _ => some 0) none)).state
      = SoilGrids.mk "/w" "/w/s" "cubic" ∧
    (∀ c, (FC (SoilGrids.mk "/w" "/w/s" "cubic") (fun _ => some "x")
        (none : Option Unit) none none
        (fun _ _ _ => Raster.mk (fun _ => some 0) none)).openCall = some c →
      c = ⟨(SoilGrids.mk "/w" "/w/s" "cubic").FC_filename, none,
        (SoilGrids.mk "/w" "/w/s" "cubic").resampling⟩) ∧
    (∀ c, (WP (SoilGrids.mk "/w" "/w/s" "cubic") (fun _ => some "x")
        (none : Option Unit) (some "nearest") none
        (fun _ _ _ => Raster.mk (fun _ => some 0) none)).openCall = some c →
      c = ⟨(SoilGrids.mk "/w" "/w/s" "cubic").WP_filename, none, "nearest"⟩) ∧
    ((WP (SoilGrids.mk "/w" "/w/s" "cubic") (fun _ => some "x") (none : Option Unit)
        (some "nearest") none (fun _ _ _ => Raster.mk (fun _ => some 0) none)).error = none →
      (WP (SoilGrids.mk "/w" "/w/s" "cubic") (fun _ => some "x") (none : Option Unit)
        (some "nearest") none (fun _ _ _ => Raster.mk (fun _ => some 0) none)).openCall
        = some ⟨(SoilGrids.mk "/w" "/w/s" "cubic").WP_filename, none, "nearest"⟩) ∧
    (WP (SoilGrids.mk "/w" "/w/s" "cubic") (fun _ => some "x") (none : Option Unit)
        (some "nearest") none (fun _ _ _ => Raster.mk (fun _ => some 0) none)).state
      = SoilGrids.mk "/w" "/w/s" "cubic" ∧
    (∀ c, (WP (SoilGrids.mk "/w" "/w/s" "cubic") (fun _ => some "x")
        (none : Option Unit) none none
        (fun _ _ _ => Raster.mk (fun _ => some 0) none)).openCall = some c →
      c = ⟨(SoilGrids.mk "/w" "/w/s" "cubic").WP_filename, none,
        (SoilGrids.mk "/w" "/w/s" "cubic").resampling⟩) :=
  resampling_override_used (SoilGrids.mk "/w" "/w/s" "cubic") (fun _ => some "x")
    (none : Option Unit) "nearest" none (fun _ _ _ => Raster.mk (fun _ => some 0) none)

/-- Claim C8: constructing with working directory `/tmp/wd` and no source
directory yields source directory `/tmp/wd/SoilGrids_download` and the
stated `FC_filename`; in general each product's local path is the source
directory joined with the basename of its URL. -/
theorem construction_filename_paths :
    (∀ cwd home : String,
      (SoilGrids.init cwd home (some "/tmp/wd") none DEFAULT_RESAMPLING).source_directory
          = "/tmp/wd/SoilGrids_download" ∧
      (SoilGrids.init cwd home (some "/tmp/wd") none DEFAULT_RESAMPLING).FC_filename
          = "/tmp/wd/SoilGrids_download/sol_watercontent.33kPa_usda.4b1c_m_250m_b0..0cm_1950..2017_v0.1.tif") ∧
    ∀ sg : SoilGrids,
      sg.FC_filename = join sg.source_directory (basename SoilGrids.FC_URL) ∧
      sg.WP_filename = join sg.source_directory (basename SoilGrids.WP_URL) :=
  ⟨fun _ _ => ⟨rfl, rfl⟩, fun _ => ⟨rfl, rfl⟩⟩

/-- Claim C9: `FC` and `WP` are the same parameterized routine: each equals
the single common routine instantiated at its product's URL and derived
local filename. -/
theorem fc_wp_share_routine {G : Type} (sg : SoilGrids) (fs : FileSys) (g : Option G)
    (r t : Option String) (op : String → Option G → String → Raster) :
    FC sg fs g r t op = productRaster sg SoilGrids.FC_URL sg.FC_filename fs g r t op ∧
    WP sg fs g r t op = productRaster sg SoilGrids.WP_URL sg.WP_filename fs g r t op :=
  ⟨rfl, rfl⟩

/-- Claim C10: after construction the working and source directory
attributes are exactly `abspath(expanduser(...))` of the given arguments,
hence absolute whenever the process working directory is absolute, and
every subsequent operation leaves the instance state unchanged. -/
theorem constructor_normalizes_paths {G : Type} (cwd home wd sd res : String)
    (hcwd : startswith cwd "/" = true) :
    (SoilGrids.init cwd home (some wd) (some sd) res).working_directory
        = abspath cwd (expanduser home wd) ∧
    (SoilGrids.init cwd home (some wd) (some sd) res).source_directory
        = abspath cwd (expanduser home sd) ∧
    startswith (SoilGrids.init cwd home (some wd) (some sd) res).working_directory "/"
        = true ∧
    startswith (SoilGrids.init cwd home (some wd) (some sd) res).source_directory "/"
        = true ∧
    ∀ (fs : FileSys) (g : Option G) (r t : Option String)
      (op : String → Option G → String → Raster),
      (FC (SoilGrids.init cwd home (some wd) (some sd) res) fs g r t op).state
          = SoilGrids.init cwd home (some wd) (some sd) res ∧
      (WP (SoilGrids.init cwd home (some wd) (some sd) res) fs g r t op).state
          = SoilGrids.init cwd home (some wd) (some sd) res :=
  ⟨rfl, rfl, abspath_abs cwd _ hcwd, abspath_abs cwd _ hcwd,
    fun fs g r t op => ⟨FC_state _ fs g r t op, WP_state _ fs g r t op⟩⟩

theorem constructor_normalizes_paths_witness :
    (SoilGrids.init "/c" "/h" (some "w") (some "~/s") "cubic").working_directory
        = abspath "/c" (expanduser "/h" "w") ∧
    (SoilGrids.init "/c" "/h" (some "w") (some "~/s") "cubic").source_directory
        = abspath "/c" (expanduser "/h" "~/s") ∧
    startswith (SoilGrids.init "/c" "/h" (some "w") (some "~/s") "cubic").working_directory "/"
        = true ∧
    startswith (SoilGrids.init "/c" "/h" (some "w") (some "~/s") "cubic").source_directory "/"
        = true ∧
    ∀ (fs : FileSys) (g : Option Unit) (r t : Option String)
      (op : String → Option Unit → String → Raster),
      (FC (SoilGrids.init "/c" "/h" (some "w") (some "~/s") "cubic") fs g r t op).state
          = SoilGrids.init "/c" "/h" (some "w") (some "~/s") "cubic" ∧
      (WP (SoilGrids.init "/c" "/h" (some "w") (some "~/s") "cubic") fs g r t op).state
          = SoilGrids.init "/c" "/h" (some "w") (some "~/s") "cubic" :=
  constructor_normalizes_paths "/c" "/h" "w" "~/s" "cubic" rfl
